import Mathlib

/-!
Xenko.Audio native CELT bridge (`Celt.cpp`)

A shallow embedding of `sources/engine/Xenko.Audio/Native/Celt.cpp`: the `XenkoCelt`
session class (constructor, destructor, `Init`, the two getters) and the exported
`xnCelt*` entry points.

The codec library behind `opus_custom.h` is not part of the file; it is a parameter
(`OpusLib`), a record of state transformers over an arbitrary library state `σ`.
Every call the bridge makes into the library, and every `sprintf`, is appended to a
call log, so that statements about which calls are issued, with which arguments and in
which order, are statements about that log.
-/

namespace Celt

/-- Native pointer value; `0` is `nullptr`. -/
abbrev Ptr := Nat

/-- What one `opus_custom_*_create` call hands back: the returned pointer, and the status
the call stored through its `int* error` argument (`none` when it stored nothing). -/
structure CreateResult where
  ptr : Ptr
  err : Option Int
deriving DecidableEq, Repr

/-- The request argument of `opus_custom_decoder_ctl` for the two requests the bridge uses. -/
inductive CtlRequest where
  | OPUS_RESET_STATE
  | OPUS_GET_LOOKAHEAD (delay : Ptr)
deriving DecidableEq, Repr

/-- The part of `opus_custom.h` that `Celt.cpp` calls, over a library state `σ`. Buffers
are passed by address, as in the C signatures. -/
structure OpusLib (σ : Type) where
  opus_custom_mode_create : Int → Int → σ → CreateResult × σ
  opus_custom_decoder_create : Ptr → Int → σ → CreateResult × σ
  opus_custom_encoder_create : Ptr → Int → σ → CreateResult × σ
  opus_custom_encoder_destroy : Ptr → σ → σ
  opus_custom_decoder_destroy : Ptr → σ → σ
  opus_custom_mode_destroy : Ptr → σ → σ
  opus_custom_decoder_ctl : Ptr → CtlRequest → σ → Int × σ
  opus_custom_encode_float : Ptr → Ptr → Int → Ptr → Int → σ → Int × σ
  opus_custom_decode_float : Ptr → Ptr → Int → Ptr → Int → σ → Int × σ
  opus_custom_encode : Ptr → Ptr → Int → Ptr → Int → σ → Int × σ
  opus_custom_decode : Ptr → Ptr → Int → Ptr → Int → σ → Int × σ

/-- One entry of the call log: a call into the codec library or to `sprintf`, with the
arguments it was given. -/
inductive Call where
  | mode_create (Fs frame_size : Int)
  | decoder_create (mode : Ptr) (channels : Int)
  | encoder_create (mode : Ptr) (channels : Int)
  | encoder_destroy (st : Ptr)
  | decoder_destroy (st : Ptr)
  | mode_destroy (mode : Ptr)
  | decoder_ctl (st : Ptr) (request : CtlRequest)
  | encode_float (st pcm : Ptr) (frame_size : Int) (compressed : Ptr) (maxCompressedBytes : Int)
  | decode_float (st data : Ptr) (len : Int) (pcm : Ptr) (frame_size : Int)
  | encode (st pcm : Ptr) (frame_size : Int) (compressed : Ptr) (maxCompressedBytes : Int)
  | decode (st data : Ptr) (len : Int) (pcm : Ptr) (frame_size : Int)
  | sprintf (text : String)
deriving DecidableEq, Repr

/-- Everything outside the session object: the library state, the call log (oldest call
first) and the bytes stored at the caller's `error` pointer. -/
structure World (σ : Type) where
  lib : σ
  calls : List Call
  err_str : List Char

/-- The fields of `class XenkoCelt`. -/
structure XenkoCelt where
  mode_ : Ptr
  decoder_ : Ptr
  encoder_ : Ptr
  sample_rate_ : Int
  buffer_size_ : Int
  channels_ : Int
  decoder_only_ : Bool
deriving DecidableEq, Repr

/-! ## `sprintf` with a single `%d` -/

/-- Conversion `%d` of `printf`: decimal digits, with a leading `-` for a negative value. -/
def fmt_d : Int → String
  | Int.ofNat m => Nat.repr m
  | Int.negSucc m => "-" ++ Nat.repr (m + 1)

/-- Expansion of a format that takes one `int` argument: the first `%d` is replaced by
the rendering of the argument, every other character is copied. -/
def expandFormat : List Char → Int → List Char
  | [], _ => []
  | [c], _ => [c]
  | c :: c2 :: rest, d =>
    if c = '%' ∧ c2 = 'd' then (fmt_d d).data ++ rest
    else c :: expandFormat (c2 :: rest) d

/-- A store of the text and its terminating NUL at the start of a buffer; bytes of the
buffer beyond the terminator keep their value. `sprintf` takes no capacity, so the store is
not cut at the length of the buffer; `overruns` says when it runs past a given capacity. -/
def storeCStr (buf : List Char) (text : String) : List Char :=
  text.data ++ '\x00' :: buf.drop (text.length + 1)

/-- The C string held in a buffer: the bytes before the first NUL. -/
def cstr (buf : List Char) : String :=
  String.mk (buf.takeWhile (fun c => c != '\x00'))

/-- Model of `sprintf(err_str, format, d)`: the expanded text is stored at the caller's error
pointer and the call is logged with the text it produced. -/
def sprintf {σ : Type} (format : String) (d : Int) (w : World σ) : World σ :=
  let text := String.mk (expandFormat format.data d)
  { w with calls := w.calls ++ [Call.sprintf text], err_str := storeCStr w.err_str text }

/-- Number of bytes a `sprintf` producing `text` stores: the text and the terminating NUL. -/
def bytesStored (text : String) : Nat := text.length + 1

/-! ## The session class -/

/-- Constructor `XenkoCelt::XenkoCelt`: the three pointers start null. -/
def XenkoCelt.ctor (sampleRate bufferSize channels : Int) (decoderOnly : Bool) : XenkoCelt :=
  { mode_ := 0, decoder_ := 0, encoder_ := 0, sample_rate_ := sampleRate,
    buffer_size_ := bufferSize, channels_ := channels, decoder_only_ := decoderOnly }

/-- Destructor `XenkoCelt::~XenkoCelt`; returns the fields as the body leaves them. -/
def XenkoCelt.dtor {σ : Type} (L : OpusLib σ) (celt : XenkoCelt) (w : World σ) :
    XenkoCelt × World σ :=
  let w := if celt.encoder_ ≠ 0 then
      { w with lib := L.opus_custom_encoder_destroy celt.encoder_ w.lib,
               calls := w.calls ++ [Call.encoder_destroy celt.encoder_] }
    else w
  let celt := { celt with encoder_ := 0 }
  let w := if celt.decoder_ ≠ 0 then
      { w with lib := L.opus_custom_decoder_destroy celt.decoder_ w.lib,
               calls := w.calls ++ [Call.decoder_destroy celt.decoder_] }
    else w
  let celt := { celt with decoder_ := 0 }
  let w := if celt.mode_ ≠ 0 then
      { w with lib := L.opus_custom_mode_destroy celt.mode_ w.lib,
               calls := w.calls ++ [Call.mode_destroy celt.mode_] }
    else w
  let celt := { celt with mode_ := 0 }
  (celt, w)

/-- Method `XenkoCelt::Init`. The local `int err` is uninitialised in the source; `err0` is
the value it happens to hold. Each creation call overwrites it only if the call stores a
status. -/
def XenkoCelt.Init {σ : Type} (L : OpusLib σ) (celt : XenkoCelt) (err0 : Int) (w : World σ) :
    Bool × XenkoCelt × World σ :=
  let err := err0
  let rm := L.opus_custom_mode_create celt.sample_rate_ celt.buffer_size_ w.lib
  let w := { w with lib := rm.2,
                    calls := w.calls ++ [Call.mode_create celt.sample_rate_ celt.buffer_size_] }
  let err := rm.1.err.getD err
  let celt := { celt with mode_ := rm.1.ptr }
  if celt.mode_ = 0 then
    (false, celt, sprintf "opus_custom_mode_create_err: %d" err w)
  else
    let rd := L.opus_custom_decoder_create celt.mode_ celt.channels_ w.lib
    let w := { w with lib := rd.2,
                      calls := w.calls ++ [Call.decoder_create celt.mode_ celt.channels_] }
    let err := rd.1.err.getD err
    let celt := { celt with decoder_ := rd.1.ptr }
    if celt.decoder_ = 0 then
      (false, celt, sprintf "opus_custom_decoder_create: %d" err w)
    else if !celt.decoder_only_ then
      let re := L.opus_custom_encoder_create celt.mode_ celt.channels_ w.lib
      let w := { w with lib := re.2,
                        calls := w.calls ++ [Call.encoder_create celt.mode_ celt.channels_] }
      let err := re.1.err.getD err
      let celt := { celt with encoder_ := re.1.ptr }
      if celt.encoder_ = 0 then
        (false, celt, sprintf "opus_custom_encoder_create: %d" err w)
      else (true, celt, w)
    else (true, celt, w)

/-- Getter `XenkoCelt::GetEncoder`. -/
def XenkoCelt.GetEncoder (celt : XenkoCelt) : Ptr := celt.encoder_

/-- Getter `XenkoCelt::GetDecoder`. -/
def XenkoCelt.GetDecoder (celt : XenkoCelt) : Ptr := celt.decoder_

/-! ## Exported entry points -/

/-- Entry point `xnCeltCreate`: `none` is the null handle. On a failed `Init` the session
is deleted, which runs the destructor. -/
def xnCeltCreate {σ : Type} (L : OpusLib σ) (sampleRate bufferSize channels : Int)
    (decoderOnly : Bool) (err0 : Int) (w : World σ) : Option XenkoCelt × World σ :=
  let celt := XenkoCelt.ctor sampleRate bufferSize channels decoderOnly
  let r := celt.Init L err0 w
  if !r.1 then
    (none, (r.2.1.dtor L r.2.2).2)
  else
    (some r.2.1, r.2.2)

/-- Entry point `xnCeltDestroy`: `delete celt` runs the destructor. -/
def xnCeltDestroy {σ : Type} (L : OpusLib σ) (celt : XenkoCelt) (w : World σ) : World σ :=
  (celt.dtor L w).2

/-- Entry point `xnCeltResetDecoder`; the status of the control call is dropped. -/
def xnCeltResetDecoder {σ : Type} (L : OpusLib σ) (celt : XenkoCelt) (w : World σ) : World σ :=
  { w with lib := (L.opus_custom_decoder_ctl celt.GetDecoder CtlRequest.OPUS_RESET_STATE w.lib).2,
           calls := w.calls ++ [Call.decoder_ctl celt.GetDecoder CtlRequest.OPUS_RESET_STATE] }

/-- Entry point `xnCeltGetDecoderSampleDelay`. -/
def xnCeltGetDecoderSampleDelay {σ : Type} (L : OpusLib σ) (celt : XenkoCelt) (delay : Ptr)
    (w : World σ) : Int × World σ :=
  let r := L.opus_custom_decoder_ctl celt.GetDecoder (CtlRequest.OPUS_GET_LOOKAHEAD delay) w.lib
  (r.1, { w with lib := r.2,
                 calls := w.calls ++
                   [Call.decoder_ctl celt.GetDecoder (CtlRequest.OPUS_GET_LOOKAHEAD delay)] })

/-- Entry point `xnCeltEncodeFloat`. -/
def xnCeltEncodeFloat {σ : Type} (L : OpusLib σ) (celt : XenkoCelt) (inputSamples : Ptr)
    (numberOfInputSamples : Int) (outputBuffer : Ptr) (maxOutputSize : Int) (w : World σ) :
    Int × World σ :=
  let r := L.opus_custom_encode_float celt.GetEncoder inputSamples numberOfInputSamples
    outputBuffer maxOutputSize w.lib
  (r.1, { w with lib := r.2,
                 calls := w.calls ++ [Call.encode_float celt.GetEncoder inputSamples
                   numberOfInputSamples outputBuffer maxOutputSize] })

/-- Entry point `xnCeltDecodeFloat`. -/
def xnCeltDecodeFloat {σ : Type} (L : OpusLib σ) (celt : XenkoCelt) (inputBuffer : Ptr)
    (inputBufferSize : Int) (outputBuffer : Ptr) (numberOfOutputSamples : Int) (w : World σ) :
    Int × World σ :=
  let r := L.opus_custom_decode_float celt.GetDecoder inputBuffer inputBufferSize
    outputBuffer numberOfOutputSamples w.lib
  (r.1, { w with lib := r.2,
                 calls := w.calls ++ [Call.decode_float celt.GetDecoder inputBuffer
                   inputBufferSize outputBuffer numberOfOutputSamples] })

/-- Entry point `xnCeltEncodeShort`. -/
def xnCeltEncodeShort {σ : Type} (L : OpusLib σ) (celt : XenkoCelt) (inputSamples : Ptr)
    (numberOfInputSamples : Int) (outputBuffer : Ptr) (maxOutputSize : Int) (w : World σ) :
    Int × World σ :=
  let r := L.opus_custom_encode celt.GetEncoder inputSamples numberOfInputSamples
    outputBuffer maxOutputSize w.lib
  (r.1, { w with lib := r.2,
                 calls := w.calls ++ [Call.encode celt.GetEncoder inputSamples
                   numberOfInputSamples outputBuffer maxOutputSize] })

/-- Entry point `xnCeltDecodeShort`. -/
def xnCeltDecodeShort {σ : Type} (L : OpusLib σ) (celt : XenkoCelt) (inputBuffer : Ptr)
    (inputBufferSize : Int) (outputBuffer : Ptr) (numberOfOutputSamples : Int) (w : World σ) :
    Int × World σ :=
  let r := L.opus_custom_decode celt.GetDecoder inputBuffer inputBufferSize
    outputBuffer numberOfOutputSamples w.lib
  (r.1, { w with lib := r.2,
                 calls := w.calls ++ [Call.decode celt.GetDecoder inputBuffer
                   inputBufferSize outputBuffer numberOfOutputSamples] })

/-! ## Vocabulary for the statements -/

/-- Answer of the library to the mode-creation call of an `xnCeltCreate` run started in `w`. -/
def modeOutcome {σ : Type} (L : OpusLib σ) (sampleRate bufferSize : Int) (w : World σ) :
    CreateResult :=
  (L.opus_custom_mode_create sampleRate bufferSize w.lib).1

/-- Answer of the library to the decoder-creation call of the run: the call is made with the
mode pointer the mode stage returned, in the library state the mode stage left. -/
def decoderOutcome {σ : Type} (L : OpusLib σ) (sampleRate bufferSize channels : Int)
    (w : World σ) : CreateResult :=
  let rm := L.opus_custom_mode_create sampleRate bufferSize w.lib
  (L.opus_custom_decoder_create rm.1.ptr channels rm.2).1

/-- Answer of the library to the encoder-creation call of the run: the call is made with the
mode pointer the mode stage returned, in the library state the decoder stage left. -/
def encoderOutcome {σ : Type} (L : OpusLib σ) (sampleRate bufferSize channels : Int)
    (w : World σ) : CreateResult :=
  let rm := L.opus_custom_mode_create sampleRate bufferSize w.lib
  let rd := L.opus_custom_decoder_create rm.1.ptr channels rm.2
  (L.opus_custom_encoder_create rm.1.ptr channels rd.2).1

/-- The three stages of `Init`. -/
inductive Stage where
  | mode
  | decoder
  | encoder
deriving DecidableEq, Repr

/-- Stage identifier: the text before the colon in the stage's format string. -/
def stageId : Stage → String
  | Stage.mode => "opus_custom_mode_create_err"
  | Stage.decoder => "opus_custom_decoder_create"
  | Stage.encoder => "opus_custom_encoder_create"

/-- The text `<stage>: <numeric code>`. -/
def stageMessage (s : Stage) (code : Int) : String :=
  stageId s ++ ": " ++ fmt_d code

/-- First stage of a run whose creation call answers a null pointer, with the status that
call stored; `none` when every stage the run goes through answers non-null. -/
def firstFailure {σ : Type} (L : OpusLib σ) (sampleRate bufferSize channels : Int)
    (decoderOnly : Bool) (w : World σ) : Option (Stage × Option Int) :=
  if (modeOutcome L sampleRate bufferSize w).ptr = 0 then
    some (Stage.mode, (modeOutcome L sampleRate bufferSize w).err)
  else if (decoderOutcome L sampleRate bufferSize channels w).ptr = 0 then
    some (Stage.decoder, (decoderOutcome L sampleRate bufferSize channels w).err)
  else if decoderOnly = false ∧ (encoderOutcome L sampleRate bufferSize channels w).ptr = 0 then
    some (Stage.encoder, (encoderOutcome L sampleRate bufferSize channels w).err)
  else none

/-- The texts of the `sprintf` calls of a log, in order. -/
def sprintfTexts : List Call → List String
  | [] => []
  | Call.sprintf t :: cs => t :: sprintfTexts cs
  | _ :: cs => sprintfTexts cs

/-- The release calls of a log, in order. -/
def releaseCalls : List Call → List Call
  | [] => []
  | Call.encoder_destroy p :: cs => Call.encoder_destroy p :: releaseCalls cs
  | Call.decoder_destroy p :: cs => Call.decoder_destroy p :: releaseCalls cs
  | Call.mode_destroy p :: cs => Call.mode_destroy p :: releaseCalls cs
  | _ :: cs => releaseCalls cs

/-- The calls a run appended to the log it started with. -/
def newCalls {σ : Type} (before after : World σ) : List Call :=
  after.calls.drop before.calls.length

/-- A store of `text` and its NUL runs past a buffer of `capacity` bytes. -/
def overruns (capacity : Nat) (text : String) : Prop := capacity < bytesStored text

instance (capacity : Nat) (text : String) : Decidable (overruns capacity text) :=
  inferInstanceAs (Decidable (capacity < bytesStored text))

/-- Range of the C type `int` (32 bits, two's complement). -/
def isInt32 (e : Int) : Prop := -2147483648 ≤ e ∧ e ≤ 2147483647

instance (e : Int) : Decidable (isInt32 e) :=
  inferInstanceAs (Decidable (-2147483648 ≤ e ∧ e ≤ 2147483647))

/-- A small library instance for running the bridge on concrete inputs. Its state is the
number of objects it can still allocate. Mode creation rejects a non-positive sample rate
or frame size, decoder and encoder creation reject a channel count other than 1 or 2 (status
`-1`); a creation with no allocation left answers null with status `allocFail`. Modes,
decoders and encoders live at 100, 200 and 300. -/
def stubLib (allocFail : Int) : OpusLib Nat where
  opus_custom_mode_create := fun Fs frame_size s =>
    if Fs ≤ 0 ∨ frame_size ≤ 0 then (⟨0, some (-1)⟩, s)
    else if s = 0 then (⟨0, some allocFail⟩, s)
    else (⟨100, some 0⟩, s - 1)
  opus_custom_decoder_create := fun _ channels s =>
    if channels ≠ 1 ∧ channels ≠ 2 then (⟨0, some (-1)⟩, s)
    else if s = 0 then (⟨0, some allocFail⟩, s)
    else (⟨200, some 0⟩, s - 1)
  opus_custom_encoder_create := fun _ channels s =>
    if channels ≠ 1 ∧ channels ≠ 2 then (⟨0, some (-1)⟩, s)
    else if s = 0 then (⟨0, some allocFail⟩, s)
    else (⟨300, some 0⟩, s - 1)
  opus_custom_encoder_destroy := fun _ s => s + 1
  opus_custom_decoder_destroy := fun _ s => s + 1
  opus_custom_mode_destroy := fun _ s => s + 1
  opus_custom_decoder_ctl := fun _ _ s => (0, s)
  opus_custom_encode_float := fun _ _ frame_size _ maxCompressedBytes s =>
    (if frame_size = 960 then min 120 maxCompressedBytes else -1, s)
  opus_custom_decode_float := fun _ _ len _ frame_size s =>
    (if 0 ≤ len ∧ frame_size = 960 then frame_size else -1, s)
  opus_custom_encode := fun _ _ frame_size _ maxCompressedBytes s =>
    (if frame_size = 960 then min 60 maxCompressedBytes else -1, s)
  opus_custom_decode := fun _ _ len _ frame_size s =>
    (if 0 ≤ len ∧ frame_size = 960 then frame_size else -4, s)

/-- A starting world for concrete runs: `budget` allocations left, an empty call log and a
48-byte error buffer filled with `#`. -/
def stubWorld (budget : Nat) : World Nat :=
  { lib := budget, calls := [], err_str := List.replicate 48 '#' }

/-! ## Lemmas on the text produced by `sprintf` -/

theorem expand_mode (d : Int) :
    String.mk (expandFormat "opus_custom_mode_create_err: %d".data d) =
      stageMessage Stage.mode d := by
  apply String.ext
  simp [expandFormat, stageMessage, stageId]

theorem expand_decoder (d : Int) :
    String.mk (expandFormat "opus_custom_decoder_create: %d".data d) =
      stageMessage Stage.decoder d := by
  apply String.ext
  simp [expandFormat, stageMessage, stageId]

theorem expand_encoder (d : Int) :
    String.mk (expandFormat "opus_custom_encoder_create: %d".data d) =
      stageMessage Stage.encoder d := by
  apply String.ext
  simp [expandFormat, stageMessage, stageId]

theorem digitChar_ne_nul (m : Nat) (h : m < 10) : Nat.digitChar m ≠ '\x00' := by
  interval_cases m <;> decide

theorem toDigitsCore_no_nul (f n : Nat) (acc : List Char) (hacc : ∀ c ∈ acc, c ≠ '\x00') :
    ∀ c ∈ Nat.toDigitsCore 10 f n acc, c ≠ '\x00' := by
  induction f generalizing n acc with
  | zero => simpa [Nat.toDigitsCore] using hacc
  | succ f ih =>
    simp only [Nat.toDigitsCore]
    have hd : ∀ c ∈ Nat.digitChar (n % 10) :: acc, c ≠ '\x00' := by
      intro c hc
      rcases List.mem_cons.mp hc with rfl | hc
      · exact digitChar_ne_nul _ (Nat.mod_lt _ (by decide))
      · exact hacc c hc
    split
    · exact hd
    · exact ih _ _ hd

theorem repr_no_nul (n : Nat) : ∀ c ∈ (Nat.repr n).data, c ≠ '\x00' := by
  simp only [Nat.repr, Nat.toDigits, List.asString]
  exact toDigitsCore_no_nul _ _ [] (by simp)

theorem fmt_d_no_nul (d : Int) : ∀ c ∈ (fmt_d d).data, c ≠ '\x00' := by
  cases d with
  | ofNat m => exact repr_no_nul m
  | negSucc m =>
    intro c hc
    simp only [fmt_d, String.data_append, List.mem_append] at hc
    rcases hc with hc | hc
    · have : c = '-' := by simpa using hc
      subst this
      decide
    · exact repr_no_nul _ c hc

theorem stageId_no_nul (s : Stage) : ∀ c ∈ (stageId s).data, c ≠ '\x00' := by
  cases s <;> decide

theorem stageMessage_no_nul (s : Stage) (d : Int) :
    ∀ c ∈ (stageMessage s d).data, c ≠ '\x00' := by
  intro c hc
  simp only [stageMessage, String.data_append, List.mem_append] at hc
  rcases hc with (hc | hc) | hc
  · exact stageId_no_nul s c hc
  · have : c = ':' ∨ c = ' ' := by simpa using hc
    rcases this with h | h <;> subst h <;> decide
  · exact fmt_d_no_nul d c hc

theorem takeWhile_before_nul (l r : List Char) (hl : ∀ c ∈ l, c ≠ '\x00') :
    (l ++ '\x00' :: r).takeWhile (fun c => c != '\x00') = l := by
  induction l with
  | nil => simp
  | cons a l ih =>
    have ha : (a != '\x00') = true := by
      simpa using hl a (List.mem_cons_self _ _)
    rw [List.cons_append, List.takeWhile_cons, ha]
    simp only [if_true]
    rw [ih (fun c hc => hl c (List.mem_cons_of_mem _ hc))]

theorem cstr_storeCStr (buf : List Char) (text : String)
    (h : ∀ c ∈ text.data, c ≠ '\x00') : cstr (storeCStr buf text) = text := by
  apply String.ext
  simp only [cstr, storeCStr]
  exact takeWhile_before_nul _ _ h

theorem repr_length_le (n : Nat) (h : n ≤ 2147483648) : (Nat.repr n).length ≤ 10 :=
  Nat.repr_length n 10 (by decide) (by omega)

theorem fmt_d_length_le (d : Int) (h : isInt32 d) : (fmt_d d).length ≤ 11 := by
  obtain ⟨h1, h2⟩ := h
  cases d with
  | ofNat m =>
    rw [Int.ofNat_eq_coe] at h1 h2
    have : (Nat.repr m).length ≤ 10 := repr_length_le m (by omega)
    simp only [fmt_d]
    omega
  | negSucc m =>
    rw [Int.negSucc_eq] at h1 h2
    have : (Nat.repr (m + 1)).length ≤ 10 := repr_length_le (m + 1) (by omega)
    simp only [fmt_d, String.length_append]
    have h1 : "-".length = 1 := by decide
    omega

theorem stageMessage_length (s : Stage) (d : Int) :
    (stageMessage s d).length = (stageId s).length + 2 + (fmt_d d).length := by
  simp only [stageMessage, String.length_append]
  have : ": ".length = 2 := by decide
  omega

theorem sprintf_mode {σ : Type} (d : Int) (w : World σ) :
    sprintf "opus_custom_mode_create_err: %d" d w =
      { w with calls := w.calls ++ [Call.sprintf (stageMessage Stage.mode d)],
               err_str := storeCStr w.err_str (stageMessage Stage.mode d) } := by
  rw [sprintf, expand_mode]

theorem sprintf_decoder {σ : Type} (d : Int) (w : World σ) :
    sprintf "opus_custom_decoder_create: %d" d w =
      { w with calls := w.calls ++ [Call.sprintf (stageMessage Stage.decoder d)],
               err_str := storeCStr w.err_str (stageMessage Stage.decoder d) } := by
  rw [sprintf, expand_decoder]

theorem sprintf_encoder {σ : Type} (d : Int) (w : World σ) :
    sprintf "opus_custom_encoder_create: %d" d w =
      { w with calls := w.calls ++ [Call.sprintf (stageMessage Stage.encoder d)],
               err_str := storeCStr w.err_str (stageMessage Stage.encoder d) } := by
  rw [sprintf, expand_encoder]

/-! ## The five shapes of an `xnCeltCreate` run -/

theorem create_mode_failed {σ : Type} (L : OpusLib σ) (sr bs ch : Int) (dOnly : Bool)
    (err0 : Int) (w : World σ) (hm : (modeOutcome L sr bs w).ptr = 0) :
    xnCeltCreate L sr bs ch dOnly err0 w =
      (none,
       { lib := (L.opus_custom_mode_create sr bs w.lib).2,
         calls := w.calls ++ [Call.mode_create sr bs,
           Call.sprintf (stageMessage Stage.mode ((modeOutcome L sr bs w).err.getD err0))],
         err_str := storeCStr w.err_str
           (stageMessage Stage.mode ((modeOutcome L sr bs w).err.getD err0)) }) := by
  simp only [modeOutcome] at hm
  simp [xnCeltCreate, XenkoCelt.Init, XenkoCelt.ctor, XenkoCelt.dtor, sprintf_mode, modeOutcome, hm]

theorem create_decoder_failed {σ : Type} (L : OpusLib σ) (sr bs ch : Int) (dOnly : Bool)
    (err0 : Int) (w : World σ) (hm : (modeOutcome L sr bs w).ptr ≠ 0)
    (hd : (decoderOutcome L sr bs ch w).ptr = 0) :
    xnCeltCreate L sr bs ch dOnly err0 w =
      (none,
       { lib := L.opus_custom_mode_destroy (modeOutcome L sr bs w).ptr
           (L.opus_custom_decoder_create (modeOutcome L sr bs w).ptr ch
             (L.opus_custom_mode_create sr bs w.lib).2).2,
         calls := w.calls ++ [Call.mode_create sr bs,
           Call.decoder_create (modeOutcome L sr bs w).ptr ch,
           Call.sprintf (stageMessage Stage.decoder
             ((decoderOutcome L sr bs ch w).err.getD ((modeOutcome L sr bs w).err.getD err0))),
           Call.mode_destroy (modeOutcome L sr bs w).ptr],
         err_str := storeCStr w.err_str (stageMessage Stage.decoder
             ((decoderOutcome L sr bs ch w).err.getD
               ((modeOutcome L sr bs w).err.getD err0))) }) := by
  simp only [modeOutcome, decoderOutcome] at hm hd
  simp [xnCeltCreate, XenkoCelt.Init, XenkoCelt.ctor, XenkoCelt.dtor, sprintf_decoder,
    modeOutcome, decoderOutcome, hm, hd]

theorem create_encoder_failed {σ : Type} (L : OpusLib σ) (sr bs ch : Int)
    (err0 : Int) (w : World σ) (hm : (modeOutcome L sr bs w).ptr ≠ 0)
    (hd : (decoderOutcome L sr bs ch w).ptr ≠ 0)
    (he : (encoderOutcome L sr bs ch w).ptr = 0) :
    xnCeltCreate L sr bs ch false err0 w =
      (none,
       { lib := L.opus_custom_mode_destroy (modeOutcome L sr bs w).ptr
           (L.opus_custom_decoder_destroy (decoderOutcome L sr bs ch w).ptr
             (L.opus_custom_encoder_create (modeOutcome L sr bs w).ptr ch
               (L.opus_custom_decoder_create (modeOutcome L sr bs w).ptr ch
                 (L.opus_custom_mode_create sr bs w.lib).2).2).2),
         calls := w.calls ++ [Call.mode_create sr bs,
           Call.decoder_create (modeOutcome L sr bs w).ptr ch,
           Call.encoder_create (modeOutcome L sr bs w).ptr ch,
           Call.sprintf (stageMessage Stage.encoder
             ((encoderOutcome L sr bs ch w).err.getD
               ((decoderOutcome L sr bs ch w).err.getD
                 ((modeOutcome L sr bs w).err.getD err0)))),
           Call.decoder_destroy (decoderOutcome L sr bs ch w).ptr,
           Call.mode_destroy (modeOutcome L sr bs w).ptr],
         err_str := storeCStr w.err_str (stageMessage Stage.encoder
             ((encoderOutcome L sr bs ch w).err.getD
               ((decoderOutcome L sr bs ch w).err.getD
                 ((modeOutcome L sr bs w).err.getD err0)))) }) := by
  simp only [modeOutcome, decoderOutcome, encoderOutcome] at hm hd he
  simp [xnCeltCreate, XenkoCelt.Init, XenkoCelt.ctor, XenkoCelt.dtor, sprintf_encoder,
    modeOutcome, decoderOutcome, encoderOutcome, hm, hd, he]

theorem create_ok_decoder_only {σ : Type} (L : OpusLib σ) (sr bs ch : Int)
    (err0 : Int) (w : World σ) (hm : (modeOutcome L sr bs w).ptr ≠ 0)
    (hd : (decoderOutcome L sr bs ch w).ptr ≠ 0) :
    xnCeltCreate L sr bs ch true err0 w =
      (some { mode_ := (modeOutcome L sr bs w).ptr,
              decoder_ := (decoderOutcome L sr bs ch w).ptr,
              encoder_ := 0, sample_rate_ := sr, buffer_size_ := bs, channels_ := ch,
              decoder_only_ := true },
       { lib := (L.opus_custom_decoder_create (modeOutcome L sr bs w).ptr ch
                 (L.opus_custom_mode_create sr bs w.lib).2).2,
         calls := w.calls ++ [Call.mode_create sr bs,
           Call.decoder_create (modeOutcome L sr bs w).ptr ch],
         err_str := w.err_str }) := by
  simp only [modeOutcome, decoderOutcome] at hm hd
  simp [xnCeltCreate, XenkoCelt.Init, XenkoCelt.ctor, modeOutcome, decoderOutcome, hm, hd]

theorem create_ok_with_encoder {σ : Type} (L : OpusLib σ) (sr bs ch : Int)
    (err0 : Int) (w : World σ) (hm : (modeOutcome L sr bs w).ptr ≠ 0)
    (hd : (decoderOutcome L sr bs ch w).ptr ≠ 0)
    (he : (encoderOutcome L sr bs ch w).ptr ≠ 0) :
    xnCeltCreate L sr bs ch false err0 w =
      (some { mode_ := (modeOutcome L sr bs w).ptr,
              decoder_ := (decoderOutcome L sr bs ch w).ptr,
              encoder_ := (encoderOutcome L sr bs ch w).ptr,
              sample_rate_ := sr, buffer_size_ := bs, channels_ := ch,
              decoder_only_ := false },
       { lib := (L.opus_custom_encoder_create (modeOutcome L sr bs w).ptr ch
               (L.opus_custom_decoder_create (modeOutcome L sr bs w).ptr ch
                 (L.opus_custom_mode_create sr bs w.lib).2).2).2,
         calls := w.calls ++ [Call.mode_create sr bs,
           Call.decoder_create (modeOutcome L sr bs w).ptr ch,
           Call.encoder_create (modeOutcome L sr bs w).ptr ch],
         err_str := w.err_str }) := by
  simp only [modeOutcome, decoderOutcome, encoderOutcome] at hm hd he
  simp [xnCeltCreate, XenkoCelt.Init, XenkoCelt.ctor, modeOutcome, decoderOutcome,
    encoderOutcome, hm, hd, he]

theorem newCalls_append {σ : Type} (w w2 : World σ) (cs : List Call)
    (h : w2.calls = w.calls ++ cs) : newCalls w w2 = cs := by
  simp [newCalls, h]

theorem firstFailure_run {σ : Type} (L : OpusLib σ) (sr bs ch : Int) (dOnly : Bool)
    (err0 : Int) (w : World σ) (s : Stage) (reported : Option Int)
    (hff : firstFailure L sr bs ch dOnly w = some (s, reported)) :
    (xnCeltCreate L sr bs ch dOnly err0 w).1 = none ∧
    ∃ code : Int, (∀ e, reported = some e → code = e) ∧
      sprintfTexts (newCalls w (xnCeltCreate L sr bs ch dOnly err0 w).2) =
        [stageMessage s code] ∧
      (xnCeltCreate L sr bs ch dOnly err0 w).2.err_str =
        storeCStr w.err_str (stageMessage s code) := by
  unfold firstFailure at hff
  split_ifs at hff with hm hd he
  · simp only [Option.some.injEq, Prod.mk.injEq] at hff
    obtain ⟨rfl, rfl⟩ := hff
    rw [create_mode_failed L sr bs ch dOnly err0 w hm, newCalls_append _ _ _ rfl]
    exact ⟨rfl, _, fun e h => by simp [h], rfl, rfl⟩
  · simp only [Option.some.injEq, Prod.mk.injEq] at hff
    obtain ⟨rfl, rfl⟩ := hff
    rw [create_decoder_failed L sr bs ch dOnly err0 w hm hd, newCalls_append _ _ _ rfl]
    exact ⟨rfl, _, fun e h => by simp [h], rfl, rfl⟩
  · simp only [Option.some.injEq, Prod.mk.injEq] at hff
    obtain ⟨rfl, rfl⟩ := hff
    obtain ⟨rfl, he⟩ := he
    rw [create_encoder_failed L sr bs ch err0 w hm hd he, newCalls_append _ _ _ rfl]
    exact ⟨rfl, _, fun e h => by simp [h], rfl, rfl⟩

theorem firstFailure_of_none {σ : Type} (L : OpusLib σ) (sr bs ch : Int) (dOnly : Bool)
    (err0 : Int) (w : World σ)
    (hfail : (xnCeltCreate L sr bs ch dOnly err0 w).1 = none) :
    ∃ (s : Stage) (reported : Option Int),
      firstFailure L sr bs ch dOnly w = some (s, reported) := by
  unfold firstFailure
  by_cases hm : (modeOutcome L sr bs w).ptr = 0
  · exact ⟨_, _, if_pos hm⟩
  · rw [if_neg hm]
    by_cases hd : (decoderOutcome L sr bs ch w).ptr = 0
    · exact ⟨_, _, if_pos hd⟩
    · rw [if_neg hd]
      cases dOnly with
      | true =>
        rw [create_ok_decoder_only L sr bs ch err0 w hm hd] at hfail
        simp at hfail
      | false =>
        by_cases he : (encoderOutcome L sr bs ch w).ptr = 0
        · exact ⟨_, _, if_pos ⟨rfl, he⟩⟩
        · rw [create_ok_with_encoder L sr bs ch err0 w hm hd he] at hfail
          simp at hfail

theorem stageMessage_stage_inj (s s2 : Stage) (c c2 : Int)
    (h : stageMessage s2 c2 = stageMessage s c) : s2 = s := by
  have h2 := congrArg String.data h
  cases s <;> cases s2 <;> first | rfl | (simp [stageMessage, stageId] at h2)

theorem stageId_length_le (s : Stage) : (stageId s).length ≤ 27 := by
  cases s <;> decide

/-! ## Creation: which handle comes back -/

/-- C1: `xnCeltCreate` returns a non-null handle exactly when mode creation answered non-null,
decoder creation answered non-null and, when `decoderOnly` is false, encoder creation answered
non-null; every handle it returns has `mode_` and `decoder_` non-null and, when an encoder was
requested, `encoder_` non-null. -/
theorem C1_handle_iff_all_stages_succeed {σ : Type} (L : OpusLib σ) (sr bs ch : Int)
    (dOnly : Bool) (err0 : Int) (w : World σ) :
    ((xnCeltCreate L sr bs ch dOnly err0 w).1 ≠ none ↔
      ((modeOutcome L sr bs w).ptr ≠ 0 ∧ (decoderOutcome L sr bs ch w).ptr ≠ 0 ∧
        (dOnly = false → (encoderOutcome L sr bs ch w).ptr ≠ 0))) ∧
    (∀ h : XenkoCelt, (xnCeltCreate L sr bs ch dOnly err0 w).1 = some h →
      h.mode_ ≠ 0 ∧ h.decoder_ ≠ 0 ∧ (dOnly = false → h.encoder_ ≠ 0)) := by
  by_cases hm : (modeOutcome L sr bs w).ptr = 0
  · rw [create_mode_failed L sr bs ch dOnly err0 w hm]
    simp [hm]
  · by_cases hd : (decoderOutcome L sr bs ch w).ptr = 0
    · rw [create_decoder_failed L sr bs ch dOnly err0 w hm hd]
      simp [hd]
    · cases dOnly with
      | true =>
        rw [create_ok_decoder_only L sr bs ch err0 w hm hd]
        simp [hm, hd]
      | false =>
        by_cases he : (encoderOutcome L sr bs ch w).ptr = 0
        · rw [create_encoder_failed L sr bs ch err0 w hm hd he]
          simp [he]
        · rw [create_ok_with_encoder L sr bs ch err0 w hm hd he]
          simp [hm, hd, he]

/-- C2: when the creation calls the run makes answer non-null, the returned handle has the
decoder present and has the encoder present exactly when `decoderOnly` is false; with
`decoderOnly = true` the encoder is absent and the run makes no encoder-creation call (its
calls are mode creation and decoder creation only), with `decoderOnly = false` the run makes
the three creation calls and both encoder and decoder are present. -/
theorem C2_encoder_present_iff_requested {σ : Type} (L : OpusLib σ) (sr bs ch : Int)
    (dOnly : Bool) (err0 : Int) (w : World σ)
    (hm : (modeOutcome L sr bs w).ptr ≠ 0)
    (hd : (decoderOutcome L sr bs ch w).ptr ≠ 0)
    (he : dOnly = false → (encoderOutcome L sr bs ch w).ptr ≠ 0) :
    ∃ h : XenkoCelt, (xnCeltCreate L sr bs ch dOnly err0 w).1 = some h ∧
      h.decoder_ ≠ 0 ∧ (h.encoder_ ≠ 0 ↔ dOnly = false) ∧
      (dOnly = true → h.encoder_ = 0 ∧
        newCalls w (xnCeltCreate L sr bs ch dOnly err0 w).2 =
          [Call.mode_create sr bs, Call.decoder_create h.mode_ ch]) ∧
      (dOnly = false → h.encoder_ ≠ 0 ∧ h.decoder_ ≠ 0 ∧
        newCalls w (xnCeltCreate L sr bs ch dOnly err0 w).2 =
          [Call.mode_create sr bs, Call.decoder_create h.mode_ ch,
           Call.encoder_create h.mode_ ch]) := by
  cases dOnly with
  | true =>
    rw [create_ok_decoder_only L sr bs ch err0 w hm hd]
    exact ⟨_, rfl, hd, by simp, fun _ => ⟨rfl, newCalls_append _ _ _ rfl⟩, by simp⟩
  | false =>
    have he2 := he rfl
    rw [create_ok_with_encoder L sr bs ch err0 w hm hd he2]
    exact ⟨_, rfl, hd, by simp [he2], by simp, fun _ => ⟨he2, hd, newCalls_append _ _ _ rfl⟩⟩

/-- Witness for C2: the stub library with three allocations left, 48 kHz, 960 samples, two
channels; once decoder-only and once with an encoder. -/
theorem C2_encoder_present_iff_requested_witness :
    (∃ h : XenkoCelt, (xnCeltCreate (stubLib (-7)) 48000 960 2 true 0 (stubWorld 3)).1 = some h ∧
      h.decoder_ ≠ 0 ∧ (h.encoder_ ≠ 0 ↔ true = false) ∧
      (true = true → h.encoder_ = 0 ∧
        newCalls (stubWorld 3) (xnCeltCreate (stubLib (-7)) 48000 960 2 true 0 (stubWorld 3)).2 =
          [Call.mode_create 48000 960, Call.decoder_create h.mode_ 2]) ∧
      (true = false → h.encoder_ ≠ 0 ∧ h.decoder_ ≠ 0 ∧
        newCalls (stubWorld 3) (xnCeltCreate (stubLib (-7)) 48000 960 2 true 0 (stubWorld 3)).2 =
          [Call.mode_create 48000 960, Call.decoder_create h.mode_ 2,
           Call.encoder_create h.mode_ 2])) ∧
    (∃ h : XenkoCelt, (xnCeltCreate (stubLib (-7)) 48000 960 2 false 0 (stubWorld 3)).1 = some h ∧
      h.decoder_ ≠ 0 ∧ (h.encoder_ ≠ 0 ↔ false = false) ∧
      (false = true → h.encoder_ = 0 ∧
        newCalls (stubWorld 3) (xnCeltCreate (stubLib (-7)) 48000 960 2 false 0 (stubWorld 3)).2 =
          [Call.mode_create 48000 960, Call.decoder_create h.mode_ 2]) ∧
      (false = false → h.encoder_ ≠ 0 ∧ h.decoder_ ≠ 0 ∧
        newCalls (stubWorld 3) (xnCeltCreate (stubLib (-7)) 48000 960 2 false 0 (stubWorld 3)).2 =
          [Call.mode_create 48000 960, Call.decoder_create h.mode_ 2,
           Call.encoder_create h.mode_ 2])) :=
  ⟨C2_encoder_present_iff_requested (stubLib (-7)) 48000 960 2 true 0 (stubWorld 3)
      (by decide) (by decide) (by decide),
   C2_encoder_present_iff_requested (stubLib (-7)) 48000 960 2 false 0 (stubWorld 3)
      (by decide) (by decide) (by decide)⟩

/-! ## Creation: cleanup after a failed stage -/

/-- C3: a failing `xnCeltCreate` has one of three shapes. Mode stage failed: nothing was
created and no release call is made. Decoder stage failed: the mode was created and the only
release call is one release of that mode. Encoder stage failed: mode and decoder were created
and the release calls are one release of that decoder followed by one release of that mode.
In each shape the release calls follow every creation call and the `sprintf`. -/
theorem C3_failed_create_releases_what_was_created {σ : Type} (L : OpusLib σ)
    (sr bs ch : Int) (dOnly : Bool) (err0 : Int) (w : World σ)
    (hfail : (xnCeltCreate L sr bs ch dOnly err0 w).1 = none) :
    ((modeOutcome L sr bs w).ptr = 0 ∧
      releaseCalls (newCalls w (xnCeltCreate L sr bs ch dOnly err0 w).2) = [] ∧
      ∃ text, newCalls w (xnCeltCreate L sr bs ch dOnly err0 w).2 =
        [Call.mode_create sr bs, Call.sprintf text]) ∨
    ((modeOutcome L sr bs w).ptr ≠ 0 ∧ (decoderOutcome L sr bs ch w).ptr = 0 ∧
      releaseCalls (newCalls w (xnCeltCreate L sr bs ch dOnly err0 w).2) =
        [Call.mode_destroy (modeOutcome L sr bs w).ptr] ∧
      ∃ text, newCalls w (xnCeltCreate L sr bs ch dOnly err0 w).2 =
        [Call.mode_create sr bs, Call.decoder_create (modeOutcome L sr bs w).ptr ch,
         Call.sprintf text, Call.mode_destroy (modeOutcome L sr bs w).ptr]) ∨
    ((modeOutcome L sr bs w).ptr ≠ 0 ∧ (decoderOutcome L sr bs ch w).ptr ≠ 0 ∧
      dOnly = false ∧ (encoderOutcome L sr bs ch w).ptr = 0 ∧
      releaseCalls (newCalls w (xnCeltCreate L sr bs ch dOnly err0 w).2) =
        [Call.decoder_destroy (decoderOutcome L sr bs ch w).ptr,
         Call.mode_destroy (modeOutcome L sr bs w).ptr] ∧
      ∃ text, newCalls w (xnCeltCreate L sr bs ch dOnly err0 w).2 =
        [Call.mode_create sr bs, Call.decoder_create (modeOutcome L sr bs w).ptr ch,
         Call.encoder_create (modeOutcome L sr bs w).ptr ch, Call.sprintf text,
         Call.decoder_destroy (decoderOutcome L sr bs ch w).ptr,
         Call.mode_destroy (modeOutcome L sr bs w).ptr]) := by
  by_cases hm : (modeOutcome L sr bs w).ptr = 0
  · left
    rw [create_mode_failed L sr bs ch dOnly err0 w hm, newCalls_append _ _ _ rfl]
    exact ⟨hm, rfl, _, rfl⟩
  · by_cases hd : (decoderOutcome L sr bs ch w).ptr = 0
    · right; left
      rw [create_decoder_failed L sr bs ch dOnly err0 w hm hd, newCalls_append _ _ _ rfl]
      exact ⟨hm, hd, rfl, _, rfl⟩
    · cases dOnly with
      | true =>
        rw [create_ok_decoder_only L sr bs ch err0 w hm hd] at hfail
        simp at hfail
      | false =>
        by_cases he : (encoderOutcome L sr bs ch w).ptr = 0
        · right; right
          rw [create_encoder_failed L sr bs ch err0 w hm hd he, newCalls_append _ _ _ rfl]
          exact ⟨hm, hd, rfl, he, rfl, _, rfl⟩
        · rw [create_ok_with_encoder L sr bs ch err0 w hm hd he] at hfail
          simp at hfail

/-- Witness for C3: the stub library with two allocations left and an encoder requested; the
encoder stage fails after mode 100 and decoder 200 were created. -/
theorem C3_failed_create_releases_what_was_created_witness :
    (xnCeltCreate (stubLib (-7)) 48000 960 2 false 0 (stubWorld 2)).1 = none ∧
    releaseCalls (newCalls (stubWorld 2)
      (xnCeltCreate (stubLib (-7)) 48000 960 2 false 0 (stubWorld 2)).2) =
        [Call.decoder_destroy 200, Call.mode_destroy 100] := by
  have h := C3_failed_create_releases_what_was_created (stubLib (-7)) 48000 960 2 false 0
    (stubWorld 2) (by decide)
  refine ⟨by decide, ?_⟩
  rcases h with h | h | h
  · exact absurd h.1 (by decide)
  · exact absurd h.2.1 (by decide)
  · exact h.2.2.2.2.1

/-! ## Destruction -/

/-- C4: for every session state the destructor issues the release calls of exactly the
non-null resources, each once, in the order encoder, decoder, mode; it leaves the three
pointers null; and running it again on the state it leaves issues no call and changes
nothing. -/
theorem C4_dtor_releases_non_null_in_order {σ : Type} (L : OpusLib σ) (celt : XenkoCelt)
    (w : World σ) :
    newCalls w (celt.dtor L w).2 =
      (if celt.encoder_ ≠ 0 then [Call.encoder_destroy celt.encoder_] else []) ++
      (if celt.decoder_ ≠ 0 then [Call.decoder_destroy celt.decoder_] else []) ++
      (if celt.mode_ ≠ 0 then [Call.mode_destroy celt.mode_] else []) ∧
    (celt.dtor L w).1.encoder_ = 0 ∧ (celt.dtor L w).1.decoder_ = 0 ∧
    (celt.dtor L w).1.mode_ = 0 ∧
    newCalls (celt.dtor L w).2 ((celt.dtor L w).1.dtor L (celt.dtor L w).2).2 = [] ∧
    (celt.dtor L w).1.dtor L (celt.dtor L w).2 = celt.dtor L w := by
  refine ⟨?_, rfl, rfl, rfl, ?_, ?_⟩
  · apply newCalls_append
    by_cases he : celt.encoder_ = 0 <;> by_cases hd : celt.decoder_ = 0 <;>
      by_cases hm : celt.mode_ = 0 <;> simp [XenkoCelt.dtor, he, hd, hm]
  · simp [newCalls, XenkoCelt.dtor]
  · simp [XenkoCelt.dtor]

/-! ## Creation: the mode stage fails -/

/-- C5: when mode creation answers null and reports the code `e`, `xnCeltCreate` returns
null, the error buffer holds the C string `opus_custom_mode_create_err: ` followed by `e` in
decimal, the only calls of the run are the mode creation and the `sprintf` (no decoder or
encoder creation, no release call), and the session the destructor runs on has its mode,
decoder and encoder pointers null. -/
theorem C5_mode_failure {σ : Type} (L : OpusLib σ) (sr bs ch : Int) (dOnly : Bool)
    (err0 : Int) (w : World σ) (e : Int)
    (hm : modeOutcome L sr bs w = { ptr := 0, err := some e }) :
    (xnCeltCreate L sr bs ch dOnly err0 w).1 = none ∧
    cstr (xnCeltCreate L sr bs ch dOnly err0 w).2.err_str =
      "opus_custom_mode_create_err: " ++ fmt_d e ∧
    newCalls w (xnCeltCreate L sr bs ch dOnly err0 w).2 =
      [Call.mode_create sr bs, Call.sprintf ("opus_custom_mode_create_err: " ++ fmt_d e)] ∧
    releaseCalls (newCalls w (xnCeltCreate L sr bs ch dOnly err0 w).2) = [] ∧
    ((XenkoCelt.ctor sr bs ch dOnly).Init L err0 w).1 = false ∧
    ((XenkoCelt.ctor sr bs ch dOnly).Init L err0 w).2.1.mode_ = 0 ∧
    ((XenkoCelt.ctor sr bs ch dOnly).Init L err0 w).2.1.decoder_ = 0 ∧
    ((XenkoCelt.ctor sr bs ch dOnly).Init L err0 w).2.1.encoder_ = 0 := by
  have hp : (modeOutcome L sr bs w).ptr = 0 := by rw [hm]
  have hmsg : stageMessage Stage.mode e = "opus_custom_mode_create_err: " ++ fmt_d e := by
    apply String.ext
    simp [stageMessage, stageId]
  have hinit : (L.opus_custom_mode_create sr bs w.lib).1.ptr = 0 := hp
  have hrun := create_mode_failed L sr bs ch dOnly err0 w hp
  rw [hm] at hrun
  simp only [Option.getD_some, hmsg] at hrun
  rw [hrun, newCalls_append _ _ _ rfl]
  refine ⟨rfl, ?_, rfl, rfl, ?_, ?_, ?_, ?_⟩
  · rw [← hmsg]
    exact cstr_storeCStr _ _ (stageMessage_no_nul _ _)
  all_goals simp [XenkoCelt.Init, XenkoCelt.ctor, hinit]

/-- Witness for C5: the stub library rejects the sample rate 0 with code `-1`. -/
theorem C5_mode_failure_witness :
    modeOutcome (stubLib (-7)) 0 960 (stubWorld 3) = { ptr := 0, err := some (-1) } ∧
    (xnCeltCreate (stubLib (-7)) 0 960 2 false 0 (stubWorld 3)).1 = none ∧
    cstr (xnCeltCreate (stubLib (-7)) 0 960 2 false 0 (stubWorld 3)).2.err_str =
      "opus_custom_mode_create_err: -1" ∧
    newCalls (stubWorld 3) (xnCeltCreate (stubLib (-7)) 0 960 2 false 0 (stubWorld 3)).2 =
      [Call.mode_create 0 960, Call.sprintf "opus_custom_mode_create_err: -1"] := by
  have h := C5_mode_failure (stubLib (-7)) 0 960 2 false 0 (stubWorld 3) (-1) (by decide)
  exact ⟨by decide, h.1, h.2.1, h.2.2.1⟩

/-! ## Creation: the error message -/

/-- C6: a failing `xnCeltCreate` performs exactly one `sprintf`; its text, which is also the C
string left in the error buffer, is the identifier of the first stage that failed, a colon, a
space and a decimal code; when the failing creation call reported a code, the code printed is
that one, whatever earlier stages reported. The stage identifiers are pairwise distinct, and
the message determines the stage. -/
theorem C6_failure_message_names_stage_and_code {σ : Type} (L : OpusLib σ) (sr bs ch : Int)
    (dOnly : Bool) (err0 : Int) (w : World σ)
    (hfail : (xnCeltCreate L sr bs ch dOnly err0 w).1 = none) :
    ∃ (s : Stage) (reported : Option Int) (code : Int),
      firstFailure L sr bs ch dOnly w = some (s, reported) ∧
      (∀ e, reported = some e → code = e) ∧
      sprintfTexts (newCalls w (xnCeltCreate L sr bs ch dOnly err0 w).2) =
        [stageId s ++ ": " ++ fmt_d code] ∧
      cstr (xnCeltCreate L sr bs ch dOnly err0 w).2.err_str =
        stageId s ++ ": " ++ fmt_d code ∧
      (∀ (s2 : Stage) (c2 : Int),
        stageId s2 ++ ": " ++ fmt_d c2 = stageId s ++ ": " ++ fmt_d code → s2 = s) ∧
      Function.Injective stageId := by
  obtain ⟨s, reported, hff⟩ := firstFailure_of_none L sr bs ch dOnly err0 w hfail
  obtain ⟨_, code, hcode, htexts, hbuf⟩ := firstFailure_run L sr bs ch dOnly err0 w s reported hff
  refine ⟨s, reported, code, hff, hcode, htexts, ?_, ?_, ?_⟩
  · rw [hbuf]
    exact cstr_storeCStr _ _ (stageMessage_no_nul s code)
  · intro s2 c2 h
    exact stageMessage_stage_inj s s2 code c2 h
  · intro a b hab
    cases a <;> cases b <;> first | rfl | (exact absurd hab (by decide))

/-- Witness for C6: the stub library with two allocations left and an encoder requested. Mode
and decoder creation report 0, encoder creation fails and reports `-7`; the message carries
`-7`. -/
theorem C6_failure_message_names_stage_and_code_witness :
    (xnCeltCreate (stubLib (-7)) 48000 960 2 false 0 (stubWorld 2)).1 = none ∧
    firstFailure (stubLib (-7)) 48000 960 2 false (stubWorld 2) =
      some (Stage.encoder, some (-7)) ∧
    sprintfTexts (newCalls (stubWorld 2)
      (xnCeltCreate (stubLib (-7)) 48000 960 2 false 0 (stubWorld 2)).2) =
        ["opus_custom_encoder_create: -7"] := by
  have hff : firstFailure (stubLib (-7)) 48000 960 2 false (stubWorld 2) =
      some (Stage.encoder, some (-7)) := by decide
  obtain ⟨s, reported, code, h1, h2, h3, _⟩ :=
    C6_failure_message_names_stage_and_code (stubLib (-7)) 48000 960 2 false 0 (stubWorld 2)
      (by decide)
  rw [hff] at h1
  simp only [Option.some.injEq, Prod.mk.injEq] at h1
  obtain ⟨rfl, rfl⟩ := h1
  have hc : code = -7 := h2 (-7) rfl
  subst hc
  exact ⟨by decide, hff, h3⟩

/-- C7: when `xnCeltCreate` returns a handle, the bytes at the caller's error pointer are the
bytes that were there before the call and the run made no `sprintf` call, whatever
`decoderOnly` is. -/
theorem C7_success_leaves_error_buffer_untouched {σ : Type} (L : OpusLib σ) (sr bs ch : Int)
    (dOnly : Bool) (err0 : Int) (w : World σ) (h : XenkoCelt)
    (hok : (xnCeltCreate L sr bs ch dOnly err0 w).1 = some h) :
    (xnCeltCreate L sr bs ch dOnly err0 w).2.err_str = w.err_str ∧
    sprintfTexts (newCalls w (xnCeltCreate L sr bs ch dOnly err0 w).2) = [] := by
  by_cases hm : (modeOutcome L sr bs w).ptr = 0
  · rw [create_mode_failed L sr bs ch dOnly err0 w hm] at hok
    simp at hok
  · by_cases hd : (decoderOutcome L sr bs ch w).ptr = 0
    · rw [create_decoder_failed L sr bs ch dOnly err0 w hm hd] at hok
      simp at hok
    · cases dOnly with
      | true =>
        rw [create_ok_decoder_only L sr bs ch err0 w hm hd, newCalls_append _ _ _ rfl]
        exact ⟨rfl, rfl⟩
      | false =>
        by_cases he : (encoderOutcome L sr bs ch w).ptr = 0
        · rw [create_encoder_failed L sr bs ch err0 w hm hd he] at hok
          simp at hok
        · rw [create_ok_with_encoder L sr bs ch err0 w hm hd he, newCalls_append _ _ _ rfl]
          exact ⟨rfl, rfl⟩

/-- Witness for C7: successful creations on the stub library, decoder-only and with an
encoder; the 48-byte buffer of `#` is unchanged. -/
theorem C7_success_leaves_error_buffer_untouched_witness :
    ((xnCeltCreate (stubLib (-7)) 48000 960 2 true 0 (stubWorld 3)).1 =
        some { mode_ := 100, decoder_ := 200, encoder_ := 0, sample_rate_ := 48000,
               buffer_size_ := 960, channels_ := 2, decoder_only_ := true } ∧
      (xnCeltCreate (stubLib (-7)) 48000 960 2 true 0 (stubWorld 3)).2.err_str =
        List.replicate 48 '#') ∧
    ((xnCeltCreate (stubLib (-7)) 48000 960 2 false 0 (stubWorld 3)).1 =
        some { mode_ := 100, decoder_ := 200, encoder_ := 300, sample_rate_ := 48000,
               buffer_size_ := 960, channels_ := 2, decoder_only_ := false } ∧
      (xnCeltCreate (stubLib (-7)) 48000 960 2 false 0 (stubWorld 3)).2.err_str =
        List.replicate 48 '#') :=
  ⟨⟨by decide, (C7_success_leaves_error_buffer_untouched (stubLib (-7)) 48000 960 2 true 0
      (stubWorld 3)
      { mode_ := 100, decoder_ := 200, encoder_ := 0, sample_rate_ := 48000,
        buffer_size_ := 960, channels_ := 2, decoder_only_ := true } (by decide)).1⟩,
   ⟨by decide, (C7_success_leaves_error_buffer_untouched (stubLib (-7)) 48000 960 2 false 0
      (stubWorld 3)
      { mode_ := 100, decoder_ := 200, encoder_ := 300, sample_rate_ := 48000,
        buffer_size_ := 960, channels_ := 2, decoder_only_ := false } (by decide)).1⟩⟩

/-! ## Runtime entry points -/

/-- C8: each runtime entry point makes exactly one library call, the matching primitive on the
session's encoder (encode) or decoder (decode, lookahead query) with the caller's arguments in
the caller's order, returns the status of that call unchanged, and leaves the library in the
state that one call produced. -/
theorem C8_entry_points_forward_once {σ : Type} (L : OpusLib σ) (celt : XenkoCelt)
    (buf1 : Ptr) (n1 : Int) (buf2 : Ptr) (n2 : Int) (delay : Ptr) (w : World σ) :
    ((xnCeltEncodeFloat L celt buf1 n1 buf2 n2 w).1 =
        (L.opus_custom_encode_float celt.encoder_ buf1 n1 buf2 n2 w.lib).1 ∧
      newCalls w (xnCeltEncodeFloat L celt buf1 n1 buf2 n2 w).2 =
        [Call.encode_float celt.encoder_ buf1 n1 buf2 n2] ∧
      (xnCeltEncodeFloat L celt buf1 n1 buf2 n2 w).2.lib =
        (L.opus_custom_encode_float celt.encoder_ buf1 n1 buf2 n2 w.lib).2) ∧
    ((xnCeltEncodeShort L celt buf1 n1 buf2 n2 w).1 =
        (L.opus_custom_encode celt.encoder_ buf1 n1 buf2 n2 w.lib).1 ∧
      newCalls w (xnCeltEncodeShort L celt buf1 n1 buf2 n2 w).2 =
        [Call.encode celt.encoder_ buf1 n1 buf2 n2] ∧
      (xnCeltEncodeShort L celt buf1 n1 buf2 n2 w).2.lib =
        (L.opus_custom_encode celt.encoder_ buf1 n1 buf2 n2 w.lib).2) ∧
    ((xnCeltDecodeFloat L celt buf1 n1 buf2 n2 w).1 =
        (L.opus_custom_decode_float celt.decoder_ buf1 n1 buf2 n2 w.lib).1 ∧
      newCalls w (xnCeltDecodeFloat L celt buf1 n1 buf2 n2 w).2 =
        [Call.decode_float celt.decoder_ buf1 n1 buf2 n2] ∧
      (xnCeltDecodeFloat L celt buf1 n1 buf2 n2 w).2.lib =
        (L.opus_custom_decode_float celt.decoder_ buf1 n1 buf2 n2 w.lib).2) ∧
    ((xnCeltDecodeShort L celt buf1 n1 buf2 n2 w).1 =
        (L.opus_custom_decode celt.decoder_ buf1 n1 buf2 n2 w.lib).1 ∧
      newCalls w (xnCeltDecodeShort L celt buf1 n1 buf2 n2 w).2 =
        [Call.decode celt.decoder_ buf1 n1 buf2 n2] ∧
      (xnCeltDecodeShort L celt buf1 n1 buf2 n2 w).2.lib =
        (L.opus_custom_decode celt.decoder_ buf1 n1 buf2 n2 w.lib).2) ∧
    ((xnCeltGetDecoderSampleDelay L celt delay w).1 =
        (L.opus_custom_decoder_ctl celt.decoder_ (CtlRequest.OPUS_GET_LOOKAHEAD delay) w.lib).1 ∧
      newCalls w (xnCeltGetDecoderSampleDelay L celt delay w).2 =
        [Call.decoder_ctl celt.decoder_ (CtlRequest.OPUS_GET_LOOKAHEAD delay)] ∧
      (xnCeltGetDecoderSampleDelay L celt delay w).2.lib =
        (L.opus_custom_decoder_ctl celt.decoder_ (CtlRequest.OPUS_GET_LOOKAHEAD delay) w.lib).2) :=
  ⟨⟨rfl, newCalls_append _ _ _ rfl, rfl⟩, ⟨rfl, newCalls_append _ _ _ rfl, rfl⟩,
   ⟨rfl, newCalls_append _ _ _ rfl, rfl⟩, ⟨rfl, newCalls_append _ _ _ rfl, rfl⟩,
   ⟨rfl, newCalls_append _ _ _ rfl, rfl⟩⟩

/-! ## Creation: order of the stages -/

/-- C9: in every run of `xnCeltCreate` the first call is the mode creation with the session's
sample rate and buffer size. Wherever a decoder creation appears in the run, its mode argument
is the non-null pointer that mode creation returned, its channel count is the session's, the
mode creation comes earlier and no release of that mode comes earlier. Wherever an encoder
creation appears, the same holds, and moreover decoder creation returned non-null and comes
earlier. -/
theorem C9_mode_exists_before_decoder_and_encoder {σ : Type} (L : OpusLib σ) (sr bs ch : Int)
    (dOnly : Bool) (err0 : Int) (w : World σ) :
    (newCalls w (xnCeltCreate L sr bs ch dOnly err0 w).2)[0]? = some (Call.mode_create sr bs) ∧
    (∀ (i : Nat) (m : Ptr) (c : Int),
      (newCalls w (xnCeltCreate L sr bs ch dOnly err0 w).2)[i]? =
          some (Call.decoder_create m c) →
        m = (modeOutcome L sr bs w).ptr ∧ m ≠ 0 ∧ c = ch ∧
        Call.mode_create sr bs ∈
          (newCalls w (xnCeltCreate L sr bs ch dOnly err0 w).2).take i ∧
        Call.mode_destroy m ∉
          (newCalls w (xnCeltCreate L sr bs ch dOnly err0 w).2).take i) ∧
    (∀ (i : Nat) (m : Ptr) (c : Int),
      (newCalls w (xnCeltCreate L sr bs ch dOnly err0 w).2)[i]? =
          some (Call.encoder_create m c) →
        m = (modeOutcome L sr bs w).ptr ∧ m ≠ 0 ∧ c = ch ∧
        (decoderOutcome L sr bs ch w).ptr ≠ 0 ∧
        Call.mode_create sr bs ∈
          (newCalls w (xnCeltCreate L sr bs ch dOnly err0 w).2).take i ∧
        Call.decoder_create m ch ∈
          (newCalls w (xnCeltCreate L sr bs ch dOnly err0 w).2).take i ∧
        Call.mode_destroy m ∉
          (newCalls w (xnCeltCreate L sr bs ch dOnly err0 w).2).take i) := by
  by_cases hm : (modeOutcome L sr bs w).ptr = 0
  · rw [create_mode_failed L sr bs ch dOnly err0 w hm, newCalls_append _ _ _ rfl]
    refine ⟨rfl, ?_, ?_⟩ <;>
      (intro i m c hi
       rcases i with _ | _ | _ | i <;> simp at hi)
  · by_cases hd : (decoderOutcome L sr bs ch w).ptr = 0
    · rw [create_decoder_failed L sr bs ch dOnly err0 w hm hd, newCalls_append _ _ _ rfl]
      refine ⟨rfl, ?_, ?_⟩ <;>
        (intro i m c hi
         rcases i with _ | _ | _ | _ | _ | i <;> simp at hi
         try (obtain ⟨rfl, rfl⟩ := hi; simp [hm]))
    · cases dOnly with
      | true =>
        rw [create_ok_decoder_only L sr bs ch err0 w hm hd, newCalls_append _ _ _ rfl]
        refine ⟨rfl, ?_, ?_⟩ <;>
          (intro i m c hi
           rcases i with _ | _ | _ | i <;> simp at hi
           try (obtain ⟨rfl, rfl⟩ := hi; simp [hm]))
      | false =>
        by_cases he : (encoderOutcome L sr bs ch w).ptr = 0
        · rw [create_encoder_failed L sr bs ch err0 w hm hd he, newCalls_append _ _ _ rfl]
          refine ⟨rfl, ?_, ?_⟩ <;>
            (intro i m c hi
             rcases i with _ | _ | _ | _ | _ | _ | _ | i <;> simp at hi
             try (obtain ⟨rfl, rfl⟩ := hi; simp [hm, hd]))
        · rw [create_ok_with_encoder L sr bs ch err0 w hm hd he, newCalls_append _ _ _ rfl]
          refine ⟨rfl, ?_, ?_⟩ <;>
            (intro i m c hi
             rcases i with _ | _ | _ | _ | i <;> simp at hi
             try (obtain ⟨rfl, rfl⟩ := hi; simp [hm, hd]))

/-! ## Creation: size of the error message -/

/-- C10: when the first failing stage reports a code `e` in the range of a 32-bit `int`, the
one message the run writes is `<stage>: e`; it is at most 40 characters long, at most 39 for
the decoder and encoder stages, so with its NUL it does not run past a 41-byte buffer. The
bounds are reached at `-2147483648` (40, 39 and 39 characters), and for every capacity below
41 the run in which the stub library fails mode creation with that code runs past the
buffer. -/
theorem C10_message_fits_41_bytes {σ : Type} (L : OpusLib σ) (sr bs ch : Int) (dOnly : Bool)
    (err0 : Int) (w : World σ) (s : Stage) (e : Int) (he : isInt32 e)
    (hfail : firstFailure L sr bs ch dOnly w = some (s, some e)) :
    sprintfTexts (newCalls w (xnCeltCreate L sr bs ch dOnly err0 w).2) = [stageMessage s e] ∧
    (stageMessage s e).length ≤ 40 ∧
    (s ≠ Stage.mode → (stageMessage s e).length ≤ 39) ∧
    bytesStored (stageMessage s e) ≤ 41 ∧
    ¬ overruns 41 (stageMessage s e) ∧
    (stageMessage Stage.mode (-2147483648)).length = 40 ∧
    (stageMessage Stage.decoder (-2147483648)).length = 39 ∧
    (stageMessage Stage.encoder (-2147483648)).length = 39 ∧
    (∀ capacity : Nat, capacity < 41 →
      ∃ text : String,
        sprintfTexts (newCalls (stubWorld 0)
          (xnCeltCreate (stubLib (-2147483648)) 48000 960 2 false 0 (stubWorld 0)).2) =
            [text] ∧
        overruns capacity text) := by
  obtain ⟨_, code, hcode, htexts, _⟩ := firstFailure_run L sr bs ch dOnly err0 w s (some e) hfail
  have hce : code = e := hcode e rfl
  subst hce
  have hlen := stageMessage_length s code
  have hd := fmt_d_length_le code he
  have hid := stageId_length_le s
  have h39 : s ≠ Stage.mode → (stageMessage s code).length ≤ 39 := by
    intro hs
    have : (stageId s).length ≤ 26 := by
      cases s with
      | mode => exact absurd rfl hs
      | decoder => decide
      | encoder => decide
    omega
  refine ⟨htexts, by omega, h39, ?_, ?_, by decide, by decide, by decide, ?_⟩
  · simp only [bytesStored]
    omega
  · simp only [overruns, bytesStored]
    omega
  · intro capacity hcap
    refine ⟨"opus_custom_mode_create_err: -2147483648", by decide, ?_⟩
    have h41 : bytesStored "opus_custom_mode_create_err: -2147483648" = 41 := by decide
    simp only [overruns, h41]
    exact hcap

/-- Witness for C10: the stub library out of allocations reports `-2147483648` at the mode
stage; the message is 40 characters and occupies 41 bytes. -/
theorem C10_message_fits_41_bytes_witness :
    isInt32 (-2147483648) ∧
    firstFailure (stubLib (-2147483648)) 48000 960 2 false (stubWorld 0) =
      some (Stage.mode, some (-2147483648)) ∧
    sprintfTexts (newCalls (stubWorld 0)
      (xnCeltCreate (stubLib (-2147483648)) 48000 960 2 false 0 (stubWorld 0)).2) =
        [stageMessage Stage.mode (-2147483648)] ∧
    (stageMessage Stage.mode (-2147483648)).length ≤ 40 ∧
    ¬ overruns 41 (stageMessage Stage.mode (-2147483648)) := by
  have h := C10_message_fits_41_bytes (stubLib (-2147483648)) 48000 960 2 false 0 (stubWorld 0)
    Stage.mode (-2147483648) (by decide) (by decide)
  exact ⟨by decide, by decide, h.1, h.2.1, h.2.2.2.2.1⟩

end Celt
